import Mathlib

/-!
# AegisGraph — shallow embedding and verification

This file embeds the security-relevant core of the AegisGraph backend
(`src/backend`) in Lean 4 and proves properties of it:

* `GraphPolicyAgent.check` / `_check_break_glass`
  (`src/backend/agents/graph_policy_agent.py`),
* `SafetyAgent.scan` (`src/backend/agents/safety_agent.py`),
* `DatadogMCPTool.should_escalate` (`src/backend/tools/datadog_mcp_tool.py`),
* the orchestrator pipeline, mode controller and self-heal escalation
  (`src/backend/orchestrator.py`), and
* the `/mode` endpoint (`src/backend/main.py`).

External effects (Neo4j queries, the Bedrock safety classifier, JSON parsing,
response generation) are passed in as explicit oracle arguments; monotonic
timestamps are passed as integers.  Where the Python code mutates state, the
embedding threads the state explicitly and, for the pipeline, also returns the
list of external component calls that were performed.
-/

namespace AegisGraph

/-! ## String helpers (Python `in`, `str.find`, slicing, `strip`) -/

/-- `charListStartsWith sub l` — `sub` is an initial segment of `l`. -/
def charListStartsWith : List Char → List Char → Bool
  | [], _ => true
  | _ :: _, [] => false
  | a :: as, b :: bs => a == b && charListStartsWith as bs

/-- Index of the first occurrence of `sub` in `l`, if any
(character-level model of Python `str.find`). -/
def charListFind (sub : List Char) : List Char → Option Nat
  | [] => if sub.isEmpty then some 0 else none
  | c :: rest =>
      if charListStartsWith sub (c :: rest) then some 0
      else (charListFind sub rest).map (· + 1)

/-- ASCII-case lowering, character by character (Python `str.lower`). -/
def strLower (s : String) : String :=
  ⟨s.data.map Char.toLower⟩

/-- ASCII-case raising, character by character (Python `str.upper`). -/
def strUpper (s : String) : String :=
  ⟨s.data.map Char.toUpper⟩

/-- Character replacement (the source only uses `str.replace(" ", "_")`,
a single-character pattern). -/
def strReplaceChar (s : String) (old new : Char) : String :=
  ⟨s.data.map (fun c => if c == old then new else c)⟩

/-- Python `sub in s`. -/
def strContainsSub (s sub : String) : Bool :=
  (charListFind sub.data s.data).isSome

/-- Python `s.find(sub, start)` (absolute index; `none` where Python gives `-1`). -/
def strFindFrom (s sub : String) (start : Nat) : Option Nat :=
  (charListFind sub.data (s.data.drop start)).map (· + start)

/-- Python slice `s[a:b]` for `0 ≤ a ≤ b` (empty when `b ≤ a`). -/
def strSlice (s : String) (a b : Nat) : String :=
  ⟨(s.data.drop a).take (b - a)⟩

/-- Whitespace characters removed by Python `str.strip`. -/
def isPySpace (c : Char) : Bool :=
  c == ' ' || c == '\t' || c == '\n' || c == '\r' || c == '\x0b' || c == '\x0c'

/-- Python `s.strip()`. -/
def strStrip (s : String) : String :=
  ⟨((s.data.dropWhile isPySpace).reverse.dropWhile isPySpace).reverse⟩

/-! ## Data model (`src/backend/models/schemas.py`) -/

/-- `ChatRequest` (pydantic model; `request_id` already assigned). -/
structure ChatRequest where
  request_id : String
  user_id : String
  role : String
  doc_id : String
  patient_id : String
  message : String
  security_mode : String
deriving DecidableEq

/-- `IntentDecision`. -/
structure IntentDecision where
  intent : String
  needs_patient_context : Bool
  confidence : ℚ
  reason : String
deriving DecidableEq

/-- `PolicyDecision`. -/
structure PolicyDecision where
  authorized : Bool
  scope : String
  break_glass : Bool
  reason_code : String
  confidence_score : Int
  audit_trail : List String
deriving DecidableEq

/-- `SafetyDecision`. -/
structure SafetyDecision where
  action : String
  risk_score : Int
  phi_exposure_risk : ℚ
  attack_types : List String
  reason : String
deriving DecidableEq

/-- `SafetyDecision` construction: the pydantic validators clamp
`risk_score` to `[0, 100]` and `phi_exposure_risk` to `[0, 1]`. -/
def mkSafetyDecision (action : String) (risk_score : Int) (phi_exposure_risk : ℚ)
    (attack_types : List String) (reason : String) : SafetyDecision :=
  { action := action
    risk_score := max 0 (min 100 risk_score)
    phi_exposure_risk := max 0 (min 1 phi_exposure_risk)
    attack_types := attack_types
    reason := reason }

/-- `ResponseDecision`. -/
structure ResponseDecision where
  final_text : String
  blocked : Bool
  redaction_count : Nat
  reason_codes : List String
  tokens_in : Option Nat
  tokens_out : Option Nat
  cost_usd : Option ℚ
deriving DecidableEq

/-! ## Oracle result rows for the Neo4j queries -/

/-- One row of the TREATS-authorization Cypher query in
`GraphPolicyAgent.check`: `authorized`, `confidence_score` (`length(path)`,
null when the path is null) and `audit_trail` (null when the path is null). -/
structure RelRow where
  authorized : Bool
  confidence_score : Option Int
  audit_trail : Option (List String)
deriving DecidableEq

/-- One row of the ER-role Cypher query in `_check_break_glass`. -/
structure RoleRow where
  has_er_role : Bool
deriving DecidableEq

/-- External component calls performed by the pipeline, in order. -/
inductive ExtCall where
  | intentClassifier
  | relationshipLookup
  | roleLookup
  | safetyScan
  | historyLookup
  | generator
  | auditWrite
deriving DecidableEq

/-! ## GraphPolicyAgent (`src/backend/agents/graph_policy_agent.py`) -/

/-- Keyword condition of `_check_break_glass`:
`"emergency" in message.lower() or "unconscious" in message.lower()`. -/
def hasEmergencyKeyword (message : String) : Bool :=
  strContainsSub (strLower message) "emergency" || strContainsSub (strLower message) "unconscious"

/-- Outcome of the ER-role query in `_check_break_glass`:
`results and results[0].get("has_er_role", False)`; a raised exception is
swallowed (`except Exception: pass`) and yields `False`. -/
def roleCheckPasses : Except Unit (List RoleRow) → Bool
  | .ok (r :: _) => r.has_er_role
  | .ok [] => false
  | .error _ => false

/-- `GraphPolicyAgent._check_break_glass`: no emergency keyword → `False`
without querying; otherwise the ER-role query outcome decides. -/
def GraphPolicyAgent.check_break_glass (request : ChatRequest)
    (roleLookup : Except Unit (List RoleRow)) : Bool :=
  if hasEmergencyKeyword request.message then roleCheckPasses roleLookup else false

/-- Neo4j calls performed by `_check_break_glass` (the role query runs only
when the emergency keyword is present). -/
def breakGlassCalls (request : ChatRequest) : List ExtCall :=
  if hasEmergencyKeyword request.message then [.roleLookup] else []

/-- `GraphPolicyAgent.check`, instrumented with the list of Neo4j calls
performed.  `relLookup` is the outcome of the TREATS-authorization query
(`.error` models a raised exception: timeout, connection error, malformed
result); `roleLookup` is the outcome of the ER-role query.  The Python
`result.get("confidence_score", 0) or 0` maps a null score to `0`, and
`result.get("audit_trail", []) or []` maps a null trail to `[]`. -/
def GraphPolicyAgent.checkT (request : ChatRequest) (intent : IntentDecision)
    (relLookup : Except Unit (List RelRow)) (roleLookup : Except Unit (List RoleRow)) :
    PolicyDecision × List ExtCall :=
  if !intent.needs_patient_context then
    ({ authorized := true, scope := "NONE", break_glass := false,
       reason_code := "no_patient_context_needed", confidence_score := 100,
       audit_trail := [] }, [])
  else
    match relLookup with
    | .error _ =>
        ({ authorized := false, scope := "NONE", break_glass := false,
           reason_code := "neo4j_unavailable", confidence_score := 0,
           audit_trail := [] }, [.relationshipLookup])
    | .ok [] =>
        ({ authorized := false, scope := "NONE", break_glass := false,
           reason_code := "no_relationship_found", confidence_score := 0,
           audit_trail := [] }, [.relationshipLookup])
    | .ok (row :: _) =>
        let confidence_score := row.confidence_score.getD 0
        let audit_trail := row.audit_trail.getD []
        if GraphPolicyAgent.check_break_glass request roleLookup then
          ({ authorized := true, scope := "LIMITED_ALLERGIES_MEDS", break_glass := true,
             reason_code := "break_glass_emergency", confidence_score := confidence_score,
             audit_trail := audit_trail },
           .relationshipLookup :: breakGlassCalls request)
        else if row.authorized then
          ({ authorized := true, scope := "FULL", break_glass := false,
             reason_code := "treats_relationship_found", confidence_score := confidence_score,
             audit_trail := audit_trail },
           .relationshipLookup :: breakGlassCalls request)
        else
          ({ authorized := false, scope := "NONE", break_glass := false,
             reason_code := "no_treats_relationship", confidence_score := 0,
             audit_trail := [] },
           .relationshipLookup :: breakGlassCalls request)

/-- `GraphPolicyAgent.check` — the returned `PolicyDecision`. -/
def GraphPolicyAgent.check (request : ChatRequest) (intent : IntentDecision)
    (relLookup : Except Unit (List RelRow)) (roleLookup : Except Unit (List RoleRow)) :
    PolicyDecision :=
  (GraphPolicyAgent.checkT request intent relLookup roleLookup).1

/-! ## SafetyAgent (`src/backend/agents/safety_agent.py`) -/

/-- The `STRICT_MODE_KEYWORDS` deny-list. -/
def STRICT_MODE_KEYWORDS : List String :=
  ["ssn", "dob", "home address", "print database"]

/-- `SafetyAgent._check_strict_mode_keywords`: collects
`"keyword_" + keyword.replace(" ", "_")` for every matching keyword; first
component is whether any keyword matched. -/
def SafetyAgent.check_strict_mode_keywords (message : String) : Bool × List String :=
  let found := (STRICT_MODE_KEYWORDS.filter
      (fun kw => strContainsSub (strLower message) kw)).map
      (fun kw => "keyword_" ++ strReplaceChar kw ' ' '_')
  (!found.isEmpty, found)

/-- Outcome of `bedrock_client.invoke`:
either the raw response string or a raised exception (incl. timeouts). -/
inductive BedrockOutcome where
  | ok (response : String)
  | exn (msg : String)
deriving DecidableEq

/-- A successfully `json.loads`-parsed safety response: each field as looked
up with `dict.get`, absent keys as `none`. -/
structure ParsedSafety where
  action : Option String
  risk_score : Option Int
  phi_exposure_risk : Option ℚ
  attack_types : Option (List String)
  reason : Option String

/-- `SafetyDecision` built from a parsed response, with the `dict.get`
defaults of the source (`"ALLOW"`, `10`, `0.1`, `[]`, `""`). -/
def decisionOfParsed (r : ParsedSafety) : SafetyDecision :=
  mkSafetyDecision (r.action.getD "ALLOW") (r.risk_score.getD 10)
    (r.phi_exposure_risk.getD (1/10)) (r.attack_types.getD []) (r.reason.getD "")

/-- The outer `except Exception` fallback of `scan`: fail-safe block. -/
def failSafeBlock (msg : String) : SafetyDecision :=
  mkSafetyDecision "BLOCK" 100 1 ["bedrock_error"]
    ("Safety scan failed, blocking as fail-safe: " ++ msg)

/-- The `scan` branch for a response that is not JSON and has no code fence. -/
def unparseableAllow : SafetyDecision :=
  mkSafetyDecision "ALLOW" 10 (1/10) []
    "Unable to parse safety response, defaulting to ALLOW"

/-- The STRICT_MODE keyword auto-block result. -/
def strictKeywordBlock (attack_types : List String) : SafetyDecision :=
  mkSafetyDecision "BLOCK" 100 1 attack_types "STRICT_MODE keyword auto-block"

/-- Markdown code-fence extraction in `scan`:
`json_start = response.find(marker) + len(marker)`,
`json_end = response.find(three-backtick fence, json_start)` (`-1`, i.e. the
last index, when absent), then `response[json_start:json_end].strip()`. -/
def extractFenced (response : String) (marker : String) : String :=
  match strFindFrom response marker 0 with
  | none => ""
  | some i =>
      let jstart := i + marker.length
      let jend :=
        match strFindFrom response "```" jstart with
        | some e => e
        | none => response.length - 1
      strStrip (strSlice response jstart jend)

/-- `SafetyAgent.scan`.  `invoke` is the Bedrock call outcome and `jsonParse`
models `json.loads` (`none` = `JSONDecodeError`).  Branch order follows the
source: STRICT_MODE keyword pre-filter, Bedrock call, direct parse, fenced
re-parse (a parse failure inside the fenced branches raises past the
`JSONDecodeError` handler into the outer `except Exception`, whose message is
abstracted here), and otherwise the ALLOW default. -/
def SafetyAgent.scan (request : ChatRequest) (_policy : PolicyDecision)
    (invoke : BedrockOutcome) (jsonParse : String → Option ParsedSafety) :
    SafetyDecision :=
  if request.security_mode == "STRICT_MODE"
      && (SafetyAgent.check_strict_mode_keywords request.message).1 then
    strictKeywordBlock (SafetyAgent.check_strict_mode_keywords request.message).2
  else
    match invoke with
    | .exn msg => failSafeBlock msg
    | .ok response =>
        match jsonParse response with
        | some result => decisionOfParsed result
        | none =>
            if strContainsSub response "```json" then
              match jsonParse (extractFenced response "```json") with
              | some result => decisionOfParsed result
              | none => failSafeBlock "JSONDecodeError"
            else if strContainsSub response "```" then
              match jsonParse (extractFenced response "```") with
              | some result => decisionOfParsed result
              | none => failSafeBlock "JSONDecodeError"
            else unparseableAllow

/-! ## Security-mode controller and self-heal
(`src/backend/orchestrator.py`, `src/backend/main.py`) -/

/-- The fixed mode enum. -/
def ALLOWED_MODES : List String := ["NORMAL", "STRICT_MODE", "LOCKDOWN"]

/-- `orchestrator.set_mode`: an unrecognized string is coerced to `"NORMAL"`
(with a warning log), and any pending revert task is cancelled.  The second
component is whether a revert task is still pending afterwards. -/
def set_mode (mode : String) (_pendingRevert : Bool) : String × Bool :=
  (if ALLOWED_MODES.contains mode then mode else "NORMAL", false)

/-- `main.set_mode_endpoint` (`POST /mode`): upper-cases the requested mode;
a value outside the enum is rejected with an HTTP 400 (`.error` here, with the
detail text; Python additionally wraps the requested value in single quotes),
otherwise `set_mode` runs. -/
def set_mode_endpoint (requested : String) (pendingRevert : Bool) :
    Except String (String × Bool) :=
  if ALLOWED_MODES.contains (strUpper requested) then
    .ok (set_mode (strUpper requested) pendingRevert)
  else
    .error ("Invalid mode " ++ requested ++ ". Must be one of: NORMAL, STRICT_MODE, LOCKDOWN")

/-- The mode transition of `orchestrator._check_and_escalate`, given whether
`should_escalate()` returned true.  Second component: whether a revert task
was scheduled. -/
def check_and_escalate (mode : String) (esc : Bool) : String × Bool :=
  if esc then
    if mode == "NORMAL" then ("STRICT_MODE", true) else (mode, false)
  else (mode, false)

/-- The body of `orchestrator._schedule_revert` at fire time (after the
600-second sleep): write `"NORMAL"` only when the mode is still
`"STRICT_MODE"`.  Second component: whether the write happened. -/
def schedule_revert_fire (mode : String) : String × Bool :=
  if mode == "STRICT_MODE" then ("NORMAL", true) else (mode, false)

/-! ## DatadogMCPTool (`src/backend/tools/datadog_mcp_tool.py`) -/

/-- The escalation detector state.  Timestamps are integers standing in for
`time.monotonic()` floats: the code only subtracts and compares them. -/
structure DatadogMCPTool where
  window_seconds : ℤ
  threshold : Nat
  cooldown_seconds : ℤ
  auth_denies : List ℤ
  safety_blocks : List ℤ
  last_escalation : Option ℤ
deriving DecidableEq

/-- `DatadogMCPTool._count_recent`: prune entries with `t < now - window`
from the left, returning the pruned buffer (its length is the count). -/
def countRecent (window : ℤ) (buf : List ℤ) (now : ℤ) : List ℤ :=
  buf.dropWhile (fun t => decide (t < now - window))

/-- `DatadogMCPTool.record_auth_deny` at time `now`. -/
def DatadogMCPTool.record_auth_deny (d : DatadogMCPTool) (now : ℤ) : DatadogMCPTool :=
  { d with auth_denies := d.auth_denies ++ [now] }

/-- `DatadogMCPTool.record_safety_block` at time `now`. -/
def DatadogMCPTool.record_safety_block (d : DatadogMCPTool) (now : ℤ) : DatadogMCPTool :=
  { d with safety_blocks := d.safety_blocks ++ [now] }

/-- The part of `should_escalate` after the cooldown gate: prune-and-count
the auth-deny buffer, then (only if it stays below threshold) the
safety-block buffer; stamp `last_escalation` on success. -/
def escalateBody (d : DatadogMCPTool) (now : ℤ) : Bool × DatadogMCPTool :=
  let ad := countRecent d.window_seconds d.auth_denies now
  if d.threshold ≤ ad.length then
    (true, { d with auth_denies := ad, last_escalation := some now })
  else
    let sb := countRecent d.window_seconds d.safety_blocks now
    if d.threshold ≤ sb.length then
      (true,
       { d with auth_denies := ad, safety_blocks := sb, last_escalation := some now })
    else
      (false, { d with auth_denies := ad, safety_blocks := sb })

/-- `DatadogMCPTool.should_escalate` at time `now`, returning the result and
the updated state.  The cooldown gate returns `false` before touching any
buffer. -/
def DatadogMCPTool.should_escalate (d : DatadogMCPTool) (now : ℤ) :
    Bool × DatadogMCPTool :=
  match d.last_escalation with
  | some le =>
      if now - le < d.cooldown_seconds then (false, d)
      else escalateBody d now
  | none => escalateBody d now

/-! ## Orchestrator pipeline (`src/backend/orchestrator.py`) -/

/-- The shape of the result dictionary common to every `run_pipeline` exit
(the success exit carries further keys — tokens, cost, intent, scope — not
needed by any claim here). -/
structure PipelineResult where
  request_id : String
  blocked : Bool
  reason : String
  final_text : String
  security_mode : String
deriving DecidableEq

/-- Python `", ".join(l)`. -/
def joinComma (l : List String) : String := String.intercalate ", " l

/-- `orchestrator.run_pipeline`.  `mode` is the live global security mode
(it overwrites `request.security_mode` on entry); `intentD`, the lookup
oracles, `invoke`/`jsonParse` and `respD` stand for the intent classifier,
the two Neo4j policy queries, the Bedrock safety classifier and the response
generator.  Returns the result and the ordered list of external component
calls performed (metric/log emissions are not modelled as calls; the audit
write is `_save_chat_history`). -/
def run_pipeline (mode : String) (request0 : ChatRequest) (intentD : IntentDecision)
    (relLookup : Except Unit (List RelRow)) (roleLookup : Except Unit (List RoleRow))
    (invoke : BedrockOutcome) (jsonParse : String → Option ParsedSafety)
    (respD : ResponseDecision) : PipelineResult × List ExtCall :=
  let request := { request0 with security_mode := mode }
  if request.security_mode == "LOCKDOWN" then
    ({ request_id := request.request_id, blocked := true,
       reason := "System is in LOCKDOWN mode", final_text := "",
       security_mode := request.security_mode }, [.auditWrite])
  else
    let (policy, policyCalls) :=
      GraphPolicyAgent.checkT request intentD relLookup roleLookup
    let callsPolicy := ExtCall.intentClassifier :: policyCalls
    if !policy.authorized && !policy.break_glass then
      ({ request_id := request.request_id, blocked := true,
         reason := "Authorization denied: " ++ policy.reason_code, final_text := "",
         security_mode := request.security_mode }, callsPolicy ++ [.auditWrite])
    else
      let safety := SafetyAgent.scan request policy invoke jsonParse
      let callsSafety := callsPolicy ++ [.safetyScan]
      if safety.action == "BLOCK" then
        ({ request_id := request.request_id, blocked := true,
           reason := "Safety block: " ++ safety.reason, final_text := "",
           security_mode := request.security_mode }, callsSafety ++ [.auditWrite])
      else
        let callsGen := callsSafety ++ [.historyLookup, .generator]
        if respD.blocked then
          ({ request_id := request.request_id, blocked := true,
             reason := "Response generation failed: " ++ joinComma respD.reason_codes,
             final_text := "", security_mode := request.security_mode },
           callsGen ++ [.auditWrite])
        else
          ({ request_id := request.request_id, blocked := false, reason := "",
             final_text := respD.final_text, security_mode := request.security_mode },
           callsGen ++ [.auditWrite])

/-! ## Concrete fixtures used by counterexamples and witnesses -/

/-- A plain NORMAL-mode request. -/
def sampleRequest : ChatRequest :=
  { request_id := "req-1", user_id := "user-1", role := "doctor",
    doc_id := "D1", patient_id := "P101",
    message := "What are the allergies?", security_mode := "NORMAL" }

/-- A request whose message carries an emergency keyword in upper case. -/
def emergencyRequest : ChatRequest :=
  { sampleRequest with
    request_id := "req-2"
    message := "EMERGENCY: the patient is unresponsive" }

/-- An intent that needs patient context. -/
def ctxIntent : IntentDecision :=
  { intent := "TREATMENT", needs_patient_context := true, confidence := 9/10,
    reason := "asks for patient data" }

/-- An intent that does not need patient context. -/
def noCtxIntent : IntentDecision :=
  { ctxIntent with intent := "ADMIN", needs_patient_context := false }

/-- A TREATS-query row denying the relationship (null path). -/
def denyRow : RelRow :=
  { authorized := false, confidence_score := none, audit_trail := none }

/-- An authorized policy decision, as produced on the FULL-scope path. -/
def samplePolicy : PolicyDecision :=
  { authorized := true, scope := "FULL", break_glass := false,
    reason_code := "treats_relationship_found", confidence_score := 1,
    audit_trail := ["Doctor", "Patient"] }

/-- A successful generation result. -/
def sampleResponse : ResponseDecision :=
  { final_text := "The patient is allergic to penicillin.", blocked := false,
    redaction_count := 0, reason_codes := [], tokens_in := some 120,
    tokens_out := some 40, cost_usd := none }

/-! ## C1 — LOCKDOWN gate -/

/-- **C1**: for every request, when the live mode is LOCKDOWN at pipeline
entry, `run_pipeline` returns blocked=true with the reason
"System is in LOCKDOWN mode" (which mentions lockdown) and empty final text,
and the only external call performed is the audit write — no intent
classifier, relationship lookup, safety scan or generator runs. -/
theorem run_pipeline_lockdown_gate (request : ChatRequest) (intentD : IntentDecision)
    (relLookup : Except Unit (List RelRow)) (roleLookup : Except Unit (List RoleRow))
    (invoke : BedrockOutcome) (jsonParse : String → Option ParsedSafety)
    (respD : ResponseDecision) :
    run_pipeline "LOCKDOWN" request intentD relLookup roleLookup invoke jsonParse respD
      = ({ request_id := request.request_id, blocked := true,
           reason := "System is in LOCKDOWN mode", final_text := "",
           security_mode := "LOCKDOWN" }, [ExtCall.auditWrite])
    ∧ strContainsSub (strLower "System is in LOCKDOWN mode") "lockdown" = true :=
  ⟨rfl, by decide⟩

/-! ## C3 — scope/authorization invariant of `GraphPolicyAgent.check` -/

/-- **C3** counterexample: the no-patient-context short-circuit returns a
decision with authorized=true together with scope="NONE", so the claimed
invariant "no returned decision has authorized=true with scope=NONE" is
false on the code. -/
theorem check_no_context_counterexample :
    (GraphPolicyAgent.check sampleRequest noCtxIntent (.ok []) (.ok [])).authorized = true
    ∧ (GraphPolicyAgent.check sampleRequest noCtxIntent (.ok []) (.ok [])).scope = "NONE"
    ∧ (GraphPolicyAgent.check sampleRequest noCtxIntent (.ok []) (.ok [])).break_glass
        = false := by
  decide

/-- **C3** amended: every decision returned by `GraphPolicyAgent.check`
satisfies: break-glass forces authorized=true with
scope=LIMITED_ALLERGIES_MEDS; the no-patient-context short-circuit returns
authorized=true with scope="NONE"; and on the patient-context path every
non-break-glass decision has either authorized=true with scope≠"NONE" or
authorized=false with scope="NONE". -/
theorem check_scope_invariant (request : ChatRequest) (intent : IntentDecision)
    (relLookup : Except Unit (List RelRow)) (roleLookup : Except Unit (List RoleRow)) :
    ((GraphPolicyAgent.check request intent relLookup roleLookup).break_glass = true →
      (GraphPolicyAgent.check request intent relLookup roleLookup).authorized = true
      ∧ (GraphPolicyAgent.check request intent relLookup roleLookup).scope
          = "LIMITED_ALLERGIES_MEDS")
    ∧ (intent.needs_patient_context = false →
      (GraphPolicyAgent.check request intent relLookup roleLookup).authorized = true
      ∧ (GraphPolicyAgent.check request intent relLookup roleLookup).scope = "NONE")
    ∧ (intent.needs_patient_context = true →
      (GraphPolicyAgent.check request intent relLookup roleLookup).break_glass = false →
      ((GraphPolicyAgent.check request intent relLookup roleLookup).authorized = true
        ∧ (GraphPolicyAgent.check request intent relLookup roleLookup).scope ≠ "NONE")
      ∨ ((GraphPolicyAgent.check request intent relLookup roleLookup).authorized = false
        ∧ (GraphPolicyAgent.check request intent relLookup roleLookup).scope = "NONE")) := by
  unfold GraphPolicyAgent.check GraphPolicyAgent.checkT
  cases hn : intent.needs_patient_context with
  | false => simp
  | true =>
    cases relLookup with
    | error e => simp
    | ok rows =>
      cases rows with
      | nil => simp
      | cons row rest =>
        by_cases hbg : GraphPolicyAgent.check_break_glass request roleLookup
        · simp [hbg]
        · cases ha : row.authorized <;> simp [hbg, ha]

/-- Witness for `check_scope_invariant`: instantiated on the
no-patient-context fixture, where the short-circuit clause applies. -/
theorem check_scope_invariant_witness :
    (GraphPolicyAgent.check sampleRequest noCtxIntent (.ok []) (.ok [])).authorized = true
    ∧ (GraphPolicyAgent.check sampleRequest noCtxIntent (.ok []) (.ok [])).scope = "NONE" :=
  (check_scope_invariant sampleRequest noCtxIntent (.ok []) (.ok [])).2.1 rfl

/-! ## C4 — break-glass override -/

/-- **C4**: with an emergency keyword in the message (any case), an intent
needing patient context, and a non-empty lookup result denying the TREATS
relationship: if the ER-role check passes, `check` returns authorized=true,
break_glass=true, scope=LIMITED_ALLERGIES_MEDS; if the role check returns
false, returns no rows, or raises, break-glass does not fire and the
relationship-based denial stands (authorized=false, break_glass=false). -/
theorem check_break_glass_override (request : ChatRequest) (intent : IntentDecision)
    (row : RelRow) (rest : List RelRow) (rr : RoleRow) (rrest : List RoleRow)
    (roleLookup : Except Unit (List RoleRow))
    (hkw : hasEmergencyKeyword request.message = true)
    (hctx : intent.needs_patient_context = true)
    (hdeny : row.authorized = false)
    (her : rr.has_er_role = true)
    (hfail : roleCheckPasses roleLookup = false) :
    GraphPolicyAgent.check request intent (.ok (row :: rest)) (.ok (rr :: rrest))
      = { authorized := true, scope := "LIMITED_ALLERGIES_MEDS", break_glass := true,
          reason_code := "break_glass_emergency",
          confidence_score := row.confidence_score.getD 0,
          audit_trail := row.audit_trail.getD [] }
    ∧ GraphPolicyAgent.check request intent (.ok (row :: rest)) roleLookup
      = { authorized := false, scope := "NONE", break_glass := false,
          reason_code := "no_treats_relationship", confidence_score := 0,
          audit_trail := [] } := by
  unfold GraphPolicyAgent.check GraphPolicyAgent.checkT
  constructor
  · simp [GraphPolicyAgent.check_break_glass, hkw, hctx, her, roleCheckPasses]
  · simp [GraphPolicyAgent.check_break_glass, hkw, hctx, hdeny, hfail]

/-- Witness for `check_break_glass_override`: the upper-case "EMERGENCY"
message with a denying row; role lookup succeeding with the ER role for the
first conjunct, raising for the second. -/
theorem check_break_glass_override_witness :
    GraphPolicyAgent.check emergencyRequest ctxIntent (.ok [denyRow]) (.ok [⟨true⟩])
      = { authorized := true, scope := "LIMITED_ALLERGIES_MEDS", break_glass := true,
          reason_code := "break_glass_emergency",
          confidence_score := denyRow.confidence_score.getD 0,
          audit_trail := denyRow.audit_trail.getD [] }
    ∧ GraphPolicyAgent.check emergencyRequest ctxIntent (.ok [denyRow]) (.error ())
      = { authorized := false, scope := "NONE", break_glass := false,
          reason_code := "no_treats_relationship", confidence_score := 0,
          audit_trail := [] } :=
  check_break_glass_override emergencyRequest ctxIntent denyRow [] ⟨true⟩ []
    (.error ()) (by decide) rfl rfl rfl rfl

/-! ## C9 — lookup exception fail-closed -/

/-- **C9** counterexample: on a lookup exception the returned reason code is
"neo4j_unavailable", not the claimed "lookup_unavailable". -/
theorem check_error_reason_counterexample :
    (GraphPolicyAgent.check sampleRequest ctxIntent (.error ()) (.ok [])).reason_code
      = "neo4j_unavailable"
    ∧ (GraphPolicyAgent.check sampleRequest ctxIntent (.error ()) (.ok [])).reason_code
      ≠ "lookup_unavailable" := by
  decide

/-- **C9** amended: any lookup exception (timeout, connection error,
malformed result) on the patient-context path is absorbed into the
fail-closed decision authorized=false, scope="NONE", break_glass=false with
reason code "neo4j_unavailable"; `check` is a total function, so no
exception propagates to the caller. -/
theorem check_lookup_error_fail_closed (request : ChatRequest) (intent : IntentDecision)
    (roleLookup : Except Unit (List RoleRow))
    (hctx : intent.needs_patient_context = true) :
    GraphPolicyAgent.check request intent (.error ()) roleLookup
      = { authorized := false, scope := "NONE", break_glass := false,
          reason_code := "neo4j_unavailable", confidence_score := 0,
          audit_trail := [] } := by
  unfold GraphPolicyAgent.check GraphPolicyAgent.checkT
  simp [hctx]

/-- Witness for `check_lookup_error_fail_closed`. -/
theorem check_lookup_error_fail_closed_witness :
    GraphPolicyAgent.check sampleRequest ctxIntent (.error ()) (.ok [])
      = { authorized := false, scope := "NONE", break_glass := false,
          reason_code := "neo4j_unavailable", confidence_score := 0,
          audit_trail := [] } :=
  check_lookup_error_fail_closed sampleRequest ctxIntent (.ok []) rfl

/-! ## C10 — empty lookup result short-circuits before break-glass -/

/-- **C10**: with an intent needing patient context and a lookup that
succeeds with an empty result set, `checkT` returns the
"no_relationship_found" denial and performs only the relationship query —
for every role-lookup oracle, so the break-glass check can never fire on
this path even when the message has an emergency keyword and the role
lookup would grant the ER role. -/
theorem checkT_empty_results_skips_break_glass (request : ChatRequest)
    (intent : IntentDecision) (roleLookup : Except Unit (List RoleRow))
    (hctx : intent.needs_patient_context = true) :
    GraphPolicyAgent.checkT request intent (.ok []) roleLookup
      = ({ authorized := false, scope := "NONE", break_glass := false,
           reason_code := "no_relationship_found", confidence_score := 0,
           audit_trail := [] }, [ExtCall.relationshipLookup]) := by
  unfold GraphPolicyAgent.checkT
  simp [hctx]

/-- Witness for `checkT_empty_results_skips_break_glass`: emergency message
and an ER-role-granting role oracle, yet the denial stands and the role
query is absent from the performed calls. -/
theorem checkT_empty_results_witness :
    GraphPolicyAgent.checkT emergencyRequest ctxIntent (.ok []) (.ok [⟨true⟩])
      = ({ authorized := false, scope := "NONE", break_glass := false,
           reason_code := "no_relationship_found", confidence_score := 0,
           audit_trail := [] }, [ExtCall.relationshipLookup]) :=
  checkT_empty_results_skips_break_glass emergencyRequest ctxIntent (.ok [⟨true⟩]) rfl

/-! ## C2 — safety-classifier failure handling -/

/-- **C2** (code-bug evaluation): when the external safety classifier
returns the unparseable, fence-less string "not valid json" on a
NORMAL-mode request, `scan` returns the ALLOW default with risk score 10 —
the fail-open parse branch.  The claim, the spec, and the repository's own
test `test_scan_invalid_json_failsafe` all require a fail-closed BLOCK with
risk 100 on this very input. -/
theorem scan_unparseable_no_fence_allows :
    SafetyAgent.scan sampleRequest samplePolicy (.ok "not valid json") (fun _ => none)
      = unparseableAllow
    ∧ unparseableAllow.action = "ALLOW"
    ∧ unparseableAllow.risk_score = 10 :=
  ⟨rfl, by decide, by decide⟩

/-! ## C5 — automatic escalation and delayed revert -/

/-- **C5**: escalation writes STRICT_MODE only from NORMAL (it never
overrides STRICT_MODE or LOCKDOWN), and the delayed revert task at fire
time writes NORMAL exactly when the mode is still STRICT_MODE, a no-op
otherwise. -/
theorem escalation_and_revert (mode : String) (esc : Bool) :
    check_and_escalate "NORMAL" true = ("STRICT_MODE", true)
    ∧ (mode ≠ "NORMAL" → check_and_escalate mode esc = (mode, false))
    ∧ ((check_and_escalate mode esc).1 ≠ mode → mode = "NORMAL" ∧ esc = true)
    ∧ ((schedule_revert_fire mode).2 = true ↔ mode = "STRICT_MODE")
    ∧ (mode = "STRICT_MODE" → (schedule_revert_fire mode).1 = "NORMAL")
    ∧ (mode ≠ "STRICT_MODE" → schedule_revert_fire mode = (mode, false)) := by
  unfold check_and_escalate schedule_revert_fire
  by_cases hn : mode = "NORMAL" <;> by_cases hs : mode = "STRICT_MODE" <;>
    cases esc <;> simp_all

/-- Witness for `escalation_and_revert`: LOCKDOWN is left alone by both the
escalation and the revert-at-fire transition. -/
theorem escalation_and_revert_witness :
    check_and_escalate "LOCKDOWN" true = ("LOCKDOWN", false)
    ∧ schedule_revert_fire "LOCKDOWN" = ("LOCKDOWN", false) :=
  ⟨(escalation_and_revert "LOCKDOWN" true).2.1 (by decide),
   (escalation_and_revert "LOCKDOWN" true).2.2.2.2.2 (by decide)⟩

/-! ## C6 — exposed mode-setting surface -/

/-- **C6** counterexample: the exposed `/mode` endpoint rejects the
unrecognized mode string "banana" with a 400 error — it does not coerce the
mode to NORMAL. -/
theorem set_mode_endpoint_counterexample :
    set_mode_endpoint "banana" true
      = .error "Invalid mode banana. Must be one of: NORMAL, STRICT_MODE, LOCKDOWN"
    ∧ set_mode_endpoint "banana" true ≠ .ok ("NORMAL", false) := by
  refine ⟨rfl, ?_⟩
  intro h
  rw [show set_mode_endpoint "banana" true
      = .error "Invalid mode banana. Must be one of: NORMAL, STRICT_MODE, LOCKDOWN"
    from rfl] at h
  exact Except.noConfusion h

/-- **C6** amended: the endpoint upper-cases the requested mode, so
"strict_mode" normalizes to STRICT_MODE with the pending revert cancelled;
a string whose upper-casing is outside the enum is rejected with the 400
error (it is the internal `set_mode` that coerces unrecognized values to
NORMAL); and every internal mode set leaves no pending revert task. -/
theorem mode_endpoint_behaviour (p : Bool) (requested : String) :
    set_mode_endpoint "strict_mode" p = .ok ("STRICT_MODE", false)
    ∧ (ALLOWED_MODES.contains (strUpper requested) = false →
        set_mode_endpoint requested p
          = .error ("Invalid mode " ++ requested
              ++ ". Must be one of: NORMAL, STRICT_MODE, LOCKDOWN"))
    ∧ (ALLOWED_MODES.contains requested = false →
        set_mode requested p = ("NORMAL", false))
    ∧ (set_mode requested p).2 = false := by
  refine ⟨rfl, ?_, ?_, rfl⟩
  · intro h
    unfold set_mode_endpoint
    rw [h]
    simp
  · intro h
    unfold set_mode
    rw [h]
    simp

/-- Witness for `mode_endpoint_behaviour` at the string "banana". -/
theorem mode_endpoint_behaviour_witness :
    set_mode_endpoint "strict_mode" true = .ok ("STRICT_MODE", false)
    ∧ set_mode_endpoint "banana" true
      = .error "Invalid mode banana. Must be one of: NORMAL, STRICT_MODE, LOCKDOWN"
    ∧ set_mode "banana" true = ("NORMAL", false) :=
  ⟨(mode_endpoint_behaviour true "banana").1,
   (mode_endpoint_behaviour true "banana").2.1 (by decide),
   (mode_endpoint_behaviour true "banana").2.2.1 (by decide)⟩

/-! ## C7/C8 — escalation detector -/

/-- `_count_recent` prunes nothing when every timestamp is inside the
window. -/
theorem countRecent_of_all_in_window (w : ℤ) (l : List ℤ) (now : ℤ)
    (h : ∀ t ∈ l, now - w ≤ t) : countRecent w l now = l := by
  unfold countRecent
  cases l with
  | nil => rfl
  | cons t ts =>
    rw [List.dropWhile_cons]
    have ht : ¬ t < now - w := not_lt.mpr (h t (List.mem_cons_self t ts))
    simp [ht]

/-- Pruning never grows a buffer. -/
theorem countRecent_length_le (w : ℤ) (l : List ℤ) (now : ℤ) :
    (countRecent w l now).length ≤ l.length :=
  (List.dropWhile_sublist _).length_le

/-- **C7**: with no prior escalation and exactly `threshold` auth-deny
events all within the window of the check, `should_escalate` returns true
on that call and false on any further call within the cooldown; and with
only `threshold - 1` recorded denial events (and no safety blocks) it never
returns true, at any check time. -/
theorem should_escalate_threshold_burst (d : DatadogMCPTool) (now : ℤ)
    (hle : d.last_escalation = none)
    (hlen : d.auth_denies.length = d.threshold)
    (hin : ∀ t ∈ d.auth_denies, now - d.window_seconds ≤ t) :
    (d.should_escalate now).1 = true
    ∧ (∀ now' : ℤ, now' - now < d.cooldown_seconds →
        ((d.should_escalate now).2.should_escalate now').1 = false)
    ∧ (∀ (e : DatadogMCPTool) (tchk : ℤ), e.last_escalation = none →
        e.auth_denies.length + 1 = e.threshold → e.safety_blocks = [] →
        (e.should_escalate tchk).1 = false) := by
  have hcr : countRecent d.window_seconds d.auth_denies now = d.auth_denies :=
    countRecent_of_all_in_window _ _ _ hin
  have hth : d.threshold ≤ (countRecent d.window_seconds d.auth_denies now).length := by
    rw [hcr, hlen]
  have h1 : d.should_escalate now
      = (true,
         { d with
           auth_denies := countRecent d.window_seconds d.auth_denies now
           last_escalation := some now }) := by
    unfold DatadogMCPTool.should_escalate escalateBody
    rw [hle]
    simp [hth]
  refine ⟨by rw [h1], ?_, ?_⟩
  · intro now' hlt
    rw [h1]
    unfold DatadogMCPTool.should_escalate
    simp [hlt]
  · intro e tchk he hlen1 hsb
    have hA : ¬ e.threshold ≤ (countRecent e.window_seconds e.auth_denies tchk).length := by
      have := countRecent_length_le e.window_seconds e.auth_denies tchk
      omega
    have hB : ¬ e.threshold ≤ (countRecent e.window_seconds e.safety_blocks tchk).length := by
      rw [hsb]
      have : countRecent e.window_seconds [] tchk = [] := rfl
      rw [this]
      simp
      omega
    unfold DatadogMCPTool.should_escalate escalateBody
    rw [he]
    simp [hA, hB]

/-- A detector with a three-event burst inside the window, checked at time
40 with no prior escalation. -/
def detectorEx : DatadogMCPTool :=
  { window_seconds := 60, threshold := 3, cooldown_seconds := 600,
    auth_denies := [10, 20, 30], safety_blocks := [], last_escalation := none }

/-- Witness for `should_escalate_threshold_burst` on `detectorEx`. -/
theorem should_escalate_threshold_burst_witness :
    (detectorEx.should_escalate 40).1 = true
    ∧ ((detectorEx.should_escalate 40).2.should_escalate 100).1 = false :=
  ⟨(should_escalate_threshold_burst detectorEx 40 rfl rfl (by decide)).1,
   (should_escalate_threshold_burst detectorEx 40 rfl rfl (by decide)).2.1 100 (by decide)⟩

/-- **C8**: inside the cooldown window, `should_escalate` returns false and
leaves the whole detector state untouched; two calls in a row both return
false, the second also from the unchanged state. -/
theorem should_escalate_cooldown_noop (d : DatadogMCPTool) (le now now₂ : ℤ)
    (hle : d.last_escalation = some le)
    (h1 : now - le < d.cooldown_seconds)
    (h2 : now₂ - le < d.cooldown_seconds) :
    d.should_escalate now = (false, d)
    ∧ (d.should_escalate now).2.should_escalate now₂ = (false, (d.should_escalate now).2) := by
  have hstep : d.should_escalate now = (false, d) := by
    unfold DatadogMCPTool.should_escalate
    rw [hle]
    simp [h1]
  refine ⟨hstep, ?_⟩
  rw [hstep]
  unfold DatadogMCPTool.should_escalate
  rw [hle]
  simp [h2]

/-- `detectorEx` right after its escalation at time 40. -/
def cooledDetector : DatadogMCPTool :=
  { detectorEx with last_escalation := some 40 }

/-- Witness for `should_escalate_cooldown_noop` at times 50 and 60. -/
theorem should_escalate_cooldown_noop_witness :
    cooledDetector.should_escalate 50 = (false, cooledDetector) :=
  (should_escalate_cooldown_noop cooledDetector 40 50 60 rfl (by decide) (by decide)).1

end AegisGraph
